import Mathlib

/-!
Shallow embedding of `packages/core/src/service/transfer/nftService.ts`:
the NFT operation encoders (`nftTransferBody`, `nftRenewBody`, `nftLinkBody`,
`addressToDNSAddressFormat`, `createNftTransfer`) and the six orchestrator
entry points (estimate/send for transfer, renew, link), over a bit-precise
model of the ton-core cell builder.  The preflight checks and the message
assembler live in `transfer/common.ts`, which is not part of the sources
here; those are modelled from the specification and marked as such.
-/

/-- Big-endian bit encoding of a natural number into a fixed width, most
significant bit first, as ton-core `storeUint` lays values into a cell. -/
def natToBits : Nat → Nat → List Bool
  | 0, _ => []
  | w + 1, v => (v / 2 ^ w % 2 == 1) :: natToBits w v

/-- Two's-complement big-endian encoding of an integer into a fixed width,
as ton-core stores the signed 8-bit workchain of an address. -/
def intToBits (w : Nat) (i : Int) : List Bool :=
  natToBits w (i % (2 : Int) ^ w).toNat

/-- Number of bytes ton-core `storeCoins` uses for the value part of a
VarUInteger: the minimal byte length of the number, 0 for 0. -/
def byteLen (n : Nat) : Nat :=
  if n = 0 then 0 else Nat.log2 n / 8 + 1

/-- Bit layout of ton-core `storeCoins`: a 4-bit byte length followed by the
value in that many bytes. -/
def coinsBits (n : Nat) : List Bool :=
  natToBits 4 (byteLen n) ++ natToBits (8 * byteLen n) n

/-- A parsed account identifier: workchain and 256-bit hash part, the raw
representation produced by ton-core `Address.parse`. -/
structure Address where
  workchain : Int
  hash : Nat

/-- Bit layout of ton-core `storeAddress` for an internal standard address:
tag bits 10, anycast-absent bit 0, 8-bit workchain, 256-bit hash. -/
def addressBits (a : Address) : List Bool :=
  true :: false :: false :: (intToBits 8 a.workchain ++ natToBits 256 a.hash)

/-- An immutable finalized cell: ordered bit buffer plus child cells. -/
inductive Cell where
  | mk : List Bool → List Cell → Cell

/-- The ordered bit buffer of a cell. -/
def Cell.bits : Cell → List Bool
  | .mk b _ => b

/-- The child references of a cell. -/
def Cell.refs : Cell → List Cell
  | .mk _ r => r

/-- A cell under construction: the ton-core fluent builder. -/
structure Builder where
  bits : List Bool
  refs : List Cell

/-- ton-core `beginCell()`: an empty builder. -/
def beginCell : Builder := ⟨[], []⟩

/-- ton-core `storeUint(v, w)`: appends the big-endian bits of `v`. -/
def Builder.storeUint (b : Builder) (v w : Nat) : Builder :=
  ⟨b.bits ++ natToBits w v, b.refs⟩

/-- ton-core `storeBit`. -/
def Builder.storeBit (b : Builder) (x : Bool) : Builder :=
  ⟨b.bits ++ [x], b.refs⟩

/-- ton-core `storeAddress` for a present internal address. -/
def Builder.storeAddress (b : Builder) (a : Address) : Builder :=
  ⟨b.bits ++ addressBits a, b.refs⟩

/-- ton-core `storeCoins`. -/
def Builder.storeCoins (b : Builder) (n : Nat) : Builder :=
  ⟨b.bits ++ coinsBits n, b.refs⟩

/-- ton-core `storeRef`: attaches a child cell. -/
def Builder.storeRef (b : Builder) (c : Cell) : Builder :=
  ⟨b.bits, b.refs ++ [c]⟩

/-- ton-core `storeMaybeRef`: a presence bit, then the ref when non-null. -/
def Builder.storeMaybeRef (b : Builder) (c : Option Cell) : Builder :=
  match c with
  | none => b.storeBit false
  | some c => (b.storeBit true).storeRef c

/-- ton-core `endCell()`. -/
def Builder.endCell (b : Builder) : Cell := .mk b.bits b.refs

/-- The JavaScript expression `queryId || 0`: an absent query id and the
falsy value 0 both yield 0. -/
def orZero : Option Nat → Nat
  | none => 0
  | some q => if q = 0 then 0 else q

/-- `const initNftTransferAmount = toNano('1')` (nftService.ts line 20). -/
def initNftTransferAmount : Int := 1000000000

/-- `const nftTransferForwardAmount = BigInt('1')` (nftService.ts line 21). -/
def nftTransferForwardAmount : Nat := 1

/-- Parameters of `nftTransferBody` (nftService.ts lines 23-28). -/
structure NftTransferParams where
  queryId : Option Nat
  newOwnerAddress : Address
  responseAddress : Address
  forwardAmount : Nat
  forwardPayload : Option Cell

/-- `nftTransferBody` (nftService.ts lines 23-39): transfer op tag, query id,
new owner, response address, null custom payload bit, forward amount, and a
maybe-ref for the forward payload. -/
def nftTransferBody (params : NftTransferParams) : Cell :=
  ((((((beginCell.storeUint 0x5fcc3d14 32).storeUint (orZero params.queryId)
      64).storeAddress params.newOwnerAddress).storeAddress
      params.responseAddress).storeBit false).storeCoins
      params.forwardAmount).storeMaybeRef params.forwardPayload |>.endCell

/-- `nftRenewBody` (nftService.ts lines 41-47): change-dns-record op tag,
query id, and a 256-bit zero field. -/
def nftRenewBody (queryId : Option Nat) : Cell :=
  (((beginCell.storeUint 0x4eb1f0f9 32).storeUint (orZero queryId)
      64).storeUint 0 256).endCell

/-- The DNS_CATEGORY_WALLET constant (nftService.ts line 57). -/
def DNS_CATEGORY_WALLET : Nat :=
  0xe8d44050873dba865aa7c170ab4cce64d90839a34dcfd6cf71d14e0205443b1b

/-- `addressToDNSAddressFormat` (nftService.ts lines 49-50): a 16-bit marker,
the parsed address, and an 8-bit trailing zero, left as a builder.  The
external `Address.parse` is passed in as `parse`. -/
def addressToDNSAddressFormat (parse : String → Address) (address : String) :
    Builder :=
  ((beginCell.storeUint 0x9fd3 16).storeAddress (parse address)).storeUint 0 8

/-- Parameters of `nftLinkBody` (nftService.ts line 52). -/
structure NftLinkParams where
  queryId : Option Nat
  linkToAddress : String

/-- `nftLinkBody` (nftService.ts lines 52-66): change-dns-record op tag,
query id, the wallet category constant, then a ref with the DNS-format
address only when `linkToAddress` is truthy (a non-empty string). -/
def nftLinkBody (parse : String → Address) (params : NftLinkParams) : Cell :=
  let cell := ((beginCell.storeUint 0x4eb1f0f9 32).storeUint
      (orZero params.queryId) 64).storeUint DNS_CATEGORY_WALLET 256
  let cell :=
    if params.linkToAddress ≠ "" then
      cell.storeRef (addressToDNSAddressFormat parse
        params.linkToAddress).endCell
    else cell
  cell.endCell

/-- Errors of the preflight pipeline, per the spec's error taxonomy (§7). -/
inductive Err where
  | serviceUnavailable
  | emptyBalance
  | insufficientBalance
  | invalidAmount
  | wrongPassword
  deriving DecidableEq

/-- The active wallet account's raw address (`walletState.active.rawAddress`). -/
structure WalletState where
  rawAddress : String

/-- `TonRecipientData` as consumed here: the raw recipient account address
(`recipient.toAccount.address.raw`) and the free-text comment. -/
structure TonRecipientData where
  addressRaw : String
  comment : String

/-- Modelled from the spec: the external collaborators of §6 observed by one
call — service liveness, the account's balance and seqno as returned by the
account query service, whether the secret store accepts the passphrase, the
secret key that the mnemonic derives to, and the current time read by
`Date.now()`. -/
structure Env where
  serviceOk : Bool
  balance : Int
  seqno : Nat
  passwordOk : Bool
  secretKey : List Nat
  now : Nat

/-- The zero-filled placeholder secret key `Buffer.alloc(64)`. -/
def zeroKey : List Nat := List.replicate 64 0

/-- Modelled from the spec: `checkServiceTimeOrDie` from transfer/common.ts
(not among the sources); per §4.4 it fails with ServiceUnavailable when the
remote service cannot attest current time. -/
def checkServiceTimeOrDie (e : Env) : Except Err Unit :=
  if e.serviceOk then .ok () else .error .serviceUnavailable

/-- Modelled from the spec: `checkWalletPositiveBalanceOrDie` from
transfer/common.ts; per §4.4 it fails with EmptyBalance when the spendable
balance is ≤ 0. -/
def checkWalletPositiveBalanceOrDie (balance : Int) : Except Err Unit :=
  if balance ≤ 0 then .error .emptyBalance else .ok ()

/-- Modelled from the spec: `checkWalletBalanceOrDie` from
transfer/common.ts; per §4.4 it fails with InsufficientBalance when the
computed total exceeds the spendable balance. -/
def checkWalletBalanceOrDie (total balance : Int) : Except Err Unit :=
  if total > balance then .error .insufficientBalance else .ok ()

/-- Modelled from the spec: `getWalletMnemonic` (secret store, §6, failing
with WrongPassword) composed with the external `mnemonicToPrivateKey`
derivation; the environment carries the derived secret key. -/
def getKeyPairOrDie (e : Env) : Except Err (List Nat) :=
  if e.passwordOk then .ok e.secretKey else .error .wrongPassword

/-- A fully assembled transfer message: the inputs the assembler signs and
serializes. -/
structure TransferMessage where
  seqno : Nat
  secretKey : List Nat
  to' : String
  value : Int
  body : Cell

/-- Modelled from the spec: `createTransferMessage` from transfer/common.ts
(§4.3) — combines seqno, signing key, destination, value and body into a
broadcast-ready message; with a zero-filled key the message is structurally
identical but invalidly signed. -/
def createTransferMessage (seqno : Nat) (secretKey : List Nat) (to' : String)
    (value : Int) (body : Cell) : TransferMessage :=
  ⟨seqno, secretKey, to', value, body⟩

/-- `createNftTransfer` (nftService.ts lines 68-89): encodes the transfer
body with `queryId: Date.now()` (passed here as `now`), the parsed recipient
as new owner, the wallet's own raw address as response address, and the
fixed forward amount, then assembles the message. -/
def createNftTransfer (parse : String → Address) (now seqno : Nat)
    (walletState : WalletState) (recipientAddress nftAddress : String)
    (nftTransferAmount : Int) (forwardPayload : Option Cell)
    (secretKey : List Nat) : TransferMessage :=
  let body := nftTransferBody
    ⟨some now, parse recipientAddress, parse walletState.rawAddress,
      nftTransferForwardAmount, forwardPayload⟩
  createTransferMessage seqno secretKey nftAddress nftTransferAmount body

/-- `const min = toNano('0.05')` (nftService.ts line 129), in nanotons. -/
def nftTransferMin : Int := 50000000

/-- The netted transfer amount of `sendNftTransfer` (nftService.ts lines
130-132): `fee.event.extra * -1 + min`, clamped up to `min`. -/
def nftTransferFinalAmount (feeExtra : Int) : Int :=
  if feeExtra * (-1) + nftTransferMin < nftTransferMin then nftTransferMin
  else feeExtra * (-1) + nftTransferMin

/-- The total compared against the balance in `sendNftTransfer`
(nftService.ts line 134): `nftTransferAmount.plus(fee.event.extra * -1)`. -/
def nftTransferTotal (feeExtra : Int) : Int :=
  nftTransferFinalAmount feeExtra + feeExtra * (-1)

/-- The guard of nftService.ts lines 136-138: throws on a non-positive
netted amount. -/
def checkNftTransferAmount (a : Int) : Except Err Unit :=
  if a ≤ 0 then .error .invalidAmount else .ok ()

/-- `estimateNftTransfer` (nftService.ts lines 91-114): service-time check,
balance/seqno fetch, positive-balance check, then the message assembled with
the fixed 1-TON amount, the comment payload when truthy, and the default
zero key; the result is what is submitted to the emulation endpoint. -/
def estimateNftTransfer (parse : String → Address) (comment : String → Cell)
    (e : Env) (walletState : WalletState) (recipient : TonRecipientData)
    (nftAddress : String) : Except Err TransferMessage :=
  match checkServiceTimeOrDie e with
  | .error er => .error er
  | .ok _ =>
    match checkWalletPositiveBalanceOrDie e.balance with
    | .error er => .error er
    | .ok _ =>
      .ok (createNftTransfer parse e.now e.seqno walletState
        recipient.addressRaw nftAddress initNftTransferAmount
        (if recipient.comment ≠ "" then some (comment recipient.comment)
          else none)
        zeroKey)

/-- `sendNftTransfer` (nftService.ts lines 116-156): service-time check, key
retrieval, fee netting against the 0.05 TON minimum, the non-positive-amount
guard, the strict sufficiency check of the computed total, then the message
assembled with the real key; the result is what is submitted to the
broadcast endpoint. -/
def sendNftTransfer (parse : String → Address) (comment : String → Cell)
    (e : Env) (walletState : WalletState) (recipient : TonRecipientData)
    (nftAddress : String) (feeExtra : Int) : Except Err TransferMessage :=
  match checkServiceTimeOrDie e with
  | .error er => .error er
  | .ok _ =>
    match getKeyPairOrDie e with
    | .error er => .error er
    | .ok secretKey =>
      match checkNftTransferAmount (nftTransferFinalAmount feeExtra) with
      | .error er => .error er
      | .ok _ =>
        match checkWalletBalanceOrDie (nftTransferTotal feeExtra)
            e.balance with
        | .error er => .error er
        | .ok _ =>
          .ok (createNftTransfer parse e.now e.seqno walletState
            recipient.addressRaw nftAddress (nftTransferFinalAmount feeExtra)
            (if recipient.comment ≠ "" then some (comment recipient.comment)
              else none)
            secretKey)

/-- Modelled from the spec: `getKeyPairAndSeqno` from transfer/common.ts
(not among the sources); per §4.5 Send it runs the service-time check,
retrieves the signing key, fetches balance and seqno, and runs the strict
sufficiency check of the caller-supplied amount plus the sign-flipped fee
delta against the balance. -/
def getKeyPairAndSeqno (e : Env) (amount feeExtra : Int) :
    Except Err (List Nat × Nat) :=
  match checkServiceTimeOrDie e with
  | .error er => .error er
  | .ok _ =>
    match getKeyPairOrDie e with
    | .error er => .error er
    | .ok key =>
      match checkWalletBalanceOrDie (amount + feeExtra * (-1)) e.balance with
      | .error er => .error er
      | .ok _ => .ok (key, e.seqno)

/-- `sendNftRenew` (nftService.ts lines 158-183): checks and key via
`getKeyPairAndSeqno`, a renew body with no query id, assembly with the real
key, then broadcast. -/
def sendNftRenew (e : Env) (nftAddress : String) (amount feeExtra : Int) :
    Except Err TransferMessage :=
  match getKeyPairAndSeqno e amount feeExtra with
  | .error er => .error er
  | .ok ks =>
    .ok (createTransferMessage ks.2 ks.1 nftAddress amount (nftRenewBody none))

/-- `estimateNftRenew` (nftService.ts lines 185-207): service-time check,
balance/seqno fetch, positive-balance check, then assembly with the
zero-filled placeholder key; the serialized message is returned. -/
def estimateNftRenew (e : Env) (nftAddress : String) (amount : Int) :
    Except Err TransferMessage :=
  match checkServiceTimeOrDie e with
  | .error er => .error er
  | .ok _ =>
    match checkWalletPositiveBalanceOrDie e.balance with
    | .error er => .error er
    | .ok _ =>
      .ok (createTransferMessage e.seqno zeroKey nftAddress amount
        (nftRenewBody none))

/-- `sendNftLink` (nftService.ts lines 209-235): checks and key via
`getKeyPairAndSeqno`, a link body with no query id, assembly with the real
key, then broadcast. -/
def sendNftLink (parse : String → Address) (e : Env)
    (nftAddress linkToAddress : String) (amount feeExtra : Int) :
    Except Err TransferMessage :=
  match getKeyPairAndSeqno e amount feeExtra with
  | .error er => .error er
  | .ok ks =>
    .ok (createTransferMessage ks.2 ks.1 nftAddress amount
      (nftLinkBody parse ⟨none, linkToAddress⟩))

/-- `estimateNftLink` (nftService.ts lines 237-260): service-time check,
balance/seqno fetch, positive-balance check, then assembly with the
zero-filled placeholder key; the serialized message is returned. -/
def estimateNftLink (parse : String → Address) (e : Env)
    (nftAddress linkToAddress : String) (amount : Int) :
    Except Err TransferMessage :=
  match checkServiceTimeOrDie e with
  | .error er => .error er
  | .ok _ =>
    match checkWalletPositiveBalanceOrDie e.balance with
    | .error er => .error er
    | .ok _ =>
      .ok (createTransferMessage e.seqno zeroKey nftAddress amount
        (nftLinkBody parse ⟨none, linkToAddress⟩))

/-- A concrete address parser standing in for ton-core `Address.parse` in
closed evaluations. -/
def parse0 : String → Address := fun _ => ⟨0, 0⟩

/-- A concrete comment-cell builder standing in for ton-core `comment` in
closed evaluations. -/
def comment0 : String → Cell := fun _ => Cell.mk [] []

/-- A concrete address used in closed evaluations. -/
def addr0 : Address := ⟨0, 0⟩

/-- A concrete wallet state used in closed evaluations. -/
def ws0 : WalletState := ⟨"wallet"⟩

/-- A concrete recipient with no comment, used in closed evaluations. -/
def r0 : TonRecipientData := ⟨"recipient", ""⟩

/-- A concrete environment with zero balance. -/
def env0 : Env := ⟨true, 0, 0, true, [], 0⟩

/-- A concrete environment with a 1 TON balance. -/
def env1 : Env := ⟨true, 1000000000, 7, true, [1, 2], 5⟩

/-- The message a successful `sendNftTransfer` run in `env1` with fee delta
-2 broadcasts. -/
def msgC2 : TransferMessage :=
  createNftTransfer parse0 env1.now env1.seqno ws0 r0.addressRaw "nft"
    (nftTransferFinalAmount (-2)) none env1.secretKey

/-! Helper lemmas: closed-form characterizations of the orchestrator entry
points, shared by the claim theorems below. -/

lemma nftTransferFinalAmount_pos (feeExtra : Int) :
    0 < nftTransferFinalAmount feeExtra := by
  unfold nftTransferFinalAmount nftTransferMin
  split <;> omega

lemma sendNftTransfer_eq (parse : String → Address) (comment : String → Cell)
    (e : Env) (ws : WalletState) (r : TonRecipientData) (n : String)
    (feeExtra : Int) :
    sendNftTransfer parse comment e ws r n feeExtra =
      if e.serviceOk = false then .error .serviceUnavailable
      else if e.passwordOk = false then .error .wrongPassword
      else if nftTransferTotal feeExtra > e.balance then
        .error .insufficientBalance
      else .ok (createNftTransfer parse e.now e.seqno ws r.addressRaw n
        (nftTransferFinalAmount feeExtra)
        (if r.comment ≠ "" then some (comment r.comment) else none)
        e.secretKey) := by
  have hpos : ¬ nftTransferFinalAmount feeExtra ≤ 0 := by
    have := nftTransferFinalAmount_pos feeExtra
    omega
  cases hs : e.serviceOk
  · simp [sendNftTransfer, checkServiceTimeOrDie, hs]
  · cases hp : e.passwordOk
    · simp [sendNftTransfer, checkServiceTimeOrDie, getKeyPairOrDie, hs, hp]
    · by_cases hb : nftTransferTotal feeExtra > e.balance
      · simp [sendNftTransfer, checkServiceTimeOrDie, getKeyPairOrDie,
          checkNftTransferAmount, checkWalletBalanceOrDie, hs, hp, hb, hpos]
      · simp [sendNftTransfer, checkServiceTimeOrDie, getKeyPairOrDie,
          checkNftTransferAmount, checkWalletBalanceOrDie, hs, hp, hb, hpos]

lemma sendNftRenew_eq (e : Env) (n : String) (amount feeExtra : Int) :
    sendNftRenew e n amount feeExtra =
      if e.serviceOk = false then .error .serviceUnavailable
      else if e.passwordOk = false then .error .wrongPassword
      else if amount + feeExtra * (-1) > e.balance then
        .error .insufficientBalance
      else .ok (createTransferMessage e.seqno e.secretKey n amount
        (nftRenewBody none)) := by
  cases hs : e.serviceOk
  · simp [sendNftRenew, getKeyPairAndSeqno, checkServiceTimeOrDie, hs]
  · cases hp : e.passwordOk
    · simp [sendNftRenew, getKeyPairAndSeqno, checkServiceTimeOrDie,
        getKeyPairOrDie, hs, hp]
    · by_cases hb : e.balance + feeExtra < amount
      · simp [sendNftRenew, getKeyPairAndSeqno, checkServiceTimeOrDie,
          getKeyPairOrDie, checkWalletBalanceOrDie, hs, hp, hb]
      · simp [sendNftRenew, getKeyPairAndSeqno, checkServiceTimeOrDie,
          getKeyPairOrDie, checkWalletBalanceOrDie, hs, hp, hb]

lemma sendNftLink_eq (parse : String → Address) (e : Env)
    (n link : String) (amount feeExtra : Int) :
    sendNftLink parse e n link amount feeExtra =
      if e.serviceOk = false then .error .serviceUnavailable
      else if e.passwordOk = false then .error .wrongPassword
      else if amount + feeExtra * (-1) > e.balance then
        .error .insufficientBalance
      else .ok (createTransferMessage e.seqno e.secretKey n amount
        (nftLinkBody parse ⟨none, link⟩)) := by
  cases hs : e.serviceOk
  · simp [sendNftLink, getKeyPairAndSeqno, checkServiceTimeOrDie, hs]
  · cases hp : e.passwordOk
    · simp [sendNftLink, getKeyPairAndSeqno, checkServiceTimeOrDie,
        getKeyPairOrDie, hs, hp]
    · by_cases hb : e.balance + feeExtra < amount
      · simp [sendNftLink, getKeyPairAndSeqno, checkServiceTimeOrDie,
          getKeyPairOrDie, checkWalletBalanceOrDie, hs, hp, hb]
      · simp [sendNftLink, getKeyPairAndSeqno, checkServiceTimeOrDie,
          getKeyPairOrDie, checkWalletBalanceOrDie, hs, hp, hb]

lemma estimateNftTransfer_eq (parse : String → Address)
    (comment : String → Cell) (e : Env) (ws : WalletState)
    (r : TonRecipientData) (n : String) :
    estimateNftTransfer parse comment e ws r n =
      if e.serviceOk = false then .error .serviceUnavailable
      else if e.balance ≤ 0 then .error .emptyBalance
      else .ok (createNftTransfer parse e.now e.seqno ws r.addressRaw n
        initNftTransferAmount
        (if r.comment ≠ "" then some (comment r.comment) else none)
        zeroKey) := by
  cases hs : e.serviceOk
  · simp [estimateNftTransfer, checkServiceTimeOrDie, hs]
  · by_cases hb : e.balance ≤ 0
    · simp [estimateNftTransfer, checkServiceTimeOrDie,
        checkWalletPositiveBalanceOrDie, hs, hb]
    · simp [estimateNftTransfer, checkServiceTimeOrDie,
        checkWalletPositiveBalanceOrDie, hs, hb]

lemma estimateNftRenew_eq (e : Env) (n : String) (amount : Int) :
    estimateNftRenew e n amount =
      if e.serviceOk = false then .error .serviceUnavailable
      else if e.balance ≤ 0 then .error .emptyBalance
      else .ok (createTransferMessage e.seqno zeroKey n amount
        (nftRenewBody none)) := by
  cases hs : e.serviceOk
  · simp [estimateNftRenew, checkServiceTimeOrDie, hs]
  · by_cases hb : e.balance ≤ 0
    · simp [estimateNftRenew, checkServiceTimeOrDie,
        checkWalletPositiveBalanceOrDie, hs, hb]
    · simp [estimateNftRenew, checkServiceTimeOrDie,
        checkWalletPositiveBalanceOrDie, hs, hb]

lemma estimateNftLink_eq (parse : String → Address) (e : Env)
    (n link : String) (amount : Int) :
    estimateNftLink parse e n link amount =
      if e.serviceOk = false then .error .serviceUnavailable
      else if e.balance ≤ 0 then .error .emptyBalance
      else .ok (createTransferMessage e.seqno zeroKey n amount
        (nftLinkBody parse ⟨none, link⟩)) := by
  cases hs : e.serviceOk
  · simp [estimateNftLink, checkServiceTimeOrDie, hs]
  · by_cases hb : e.balance ≤ 0
    · simp [estimateNftLink, checkServiceTimeOrDie,
        checkWalletPositiveBalanceOrDie, hs, hb]
    · simp [estimateNftLink, checkServiceTimeOrDie,
        checkWalletPositiveBalanceOrDie, hs, hb]

/-- C7: for every input, the transfer encoder produces a cell that is, in
order, the fixed 32-bit operation tag 0x5fcc3d14, the 64-bit query id, the
new-owner address, the response address, a single false bit for the absent
custom payload, a coin amount for the forwarded value, and a maybe-ref for
the optional forward payload: presence bit 1 followed by the ref when
non-null, a single 0 bit when null. -/
theorem nftTransferBody_layout (params : NftTransferParams) :
    nftTransferBody params = Cell.mk
      (natToBits 32 0x5fcc3d14 ++ natToBits 64 (orZero params.queryId) ++
        addressBits params.newOwnerAddress ++
        addressBits params.responseAddress ++ [false] ++
        coinsBits params.forwardAmount ++
        (match params.forwardPayload with
          | some _ => [true]
          | none => [false]))
      (match params.forwardPayload with
        | some c => [c]
        | none => []) := by
  cases hp : params.forwardPayload <;>
    simp [nftTransferBody, beginCell, Builder.storeUint, Builder.storeAddress,
      Builder.storeBit, Builder.storeCoins, Builder.storeMaybeRef,
      Builder.storeRef, Builder.endCell, hp, List.append_assoc]

/-- C8: the link-record encoder produces the 32-bit record-change tag, the
64-bit query id, and the fixed 256-bit category constant, and attaches the
sub-cell ref (16-bit marker 0x9fd3, the parsed target address, an 8-bit
trailing zero) if and only if the target address string is non-empty; with
an empty target address the cell has zero refs. -/
theorem nftLinkBody_layout (parse : String → Address)
    (params : NftLinkParams) :
    nftLinkBody parse params = Cell.mk
      (natToBits 32 0x4eb1f0f9 ++ natToBits 64 (orZero params.queryId) ++
        natToBits 256 DNS_CATEGORY_WALLET)
      (if params.linkToAddress ≠ "" then
        [Cell.mk (natToBits 16 0x9fd3 ++
          addressBits (parse params.linkToAddress) ++ natToBits 8 0) []]
      else []) := by
  by_cases h : params.linkToAddress = "" <;>
    simp [nftLinkBody, addressToDNSAddressFormat, beginCell,
      Builder.storeUint, Builder.storeAddress, Builder.storeRef,
      Builder.endCell, h, List.append_assoc]

/-- C10: for each of the three operation encoders, explicitly supplying a
query id of 0 yields exactly the same cell as omitting the query id. -/
theorem encoders_queryId_zero_sentinel :
    (∀ (a b : Address) (fa : Nat) (fp : Option Cell),
       nftTransferBody ⟨some 0, a, b, fa, fp⟩ =
         nftTransferBody ⟨none, a, b, fa, fp⟩) ∧
    nftRenewBody (some 0) = nftRenewBody none ∧
    (∀ (parse : String → Address) (link : String),
       nftLinkBody parse ⟨some 0, link⟩ = nftLinkBody parse ⟨none, link⟩) :=
  ⟨fun _ _ _ _ => rfl, rfl, fun _ _ => rfl⟩

/-- C4, counterexample: the transfer encoder with an absent query id stores
query id 0 — its cell equals the one with explicit query id 0, and the
64-bit field after the tag is the encoding of 0, which differs from the
encoding of any current-time-derived value such as 1700000000000. -/
theorem transfer_encoder_queryId_default_cex :
    nftTransferBody ⟨none, addr0, addr0, 1, none⟩ =
      nftTransferBody ⟨some 0, addr0, addr0, 1, none⟩ ∧
    List.take 64 (List.drop 32
      (nftTransferBody ⟨none, addr0, addr0, 1, none⟩).bits) =
      natToBits 64 0 ∧
    (natToBits 64 0 == natToBits 64 1700000000000) = false :=
  ⟨rfl, by decide, by decide⟩

/-- C4, amended: all three encoders default an absent query id to 0; the
current-time-derived query id of the transfer path is supplied not by the
encoder but by `createNftTransfer`, which always passes the current time
(`Date.now()`) as the query id of the body it encodes. -/
theorem encoders_default_queryId_zero :
    (∀ (a b : Address) (fa : Nat) (fp : Option Cell),
       nftTransferBody ⟨none, a, b, fa, fp⟩ =
         nftTransferBody ⟨some 0, a, b, fa, fp⟩) ∧
    nftRenewBody none = nftRenewBody (some 0) ∧
    (∀ (parse : String → Address) (link : String),
       nftLinkBody parse ⟨none, link⟩ = nftLinkBody parse ⟨some 0, link⟩) ∧
    (∀ (parse : String → Address) (now seqno : Nat) (ws : WalletState)
       (ra na : String) (amt : Int) (fp : Option Cell) (sk : List Nat),
       (createNftTransfer parse now seqno ws ra na amt fp sk).body =
         nftTransferBody ⟨some now, parse ra, parse ws.rawAddress,
           nftTransferForwardAmount, fp⟩) :=
  ⟨fun _ _ _ _ => rfl, rfl, fun _ _ => rfl,
   fun _ _ _ _ _ _ _ _ _ => rfl⟩

lemma sendNftTransfer_env1_run :
    sendNftTransfer parse0 comment0 env1 ws0 r0 "nft" (-2) = .ok msgC2 := by
  rfl

/-- C1, counterexample: the total `sendNftTransfer` compares against the
balance (line 134, `nftTransferAmount.plus(fee.event.extra * -1)`) is not
`finalAmount + feeExtra`: at feeExtra = -2 the code's total is 50000004
(finalAmount 50000002 minus feeExtra) while `finalAmount + feeExtra` is
50000000. -/
theorem nftTransferTotal_not_plus_feeExtra :
    (nftTransferTotal (-2) == nftTransferFinalAmount (-2) + (-2)) = false ∧
    nftTransferTotal (-2) = 50000004 ∧
    nftTransferFinalAmount (-2) + (-2) = 50000000 :=
  ⟨by decide, by decide, by decide⟩

/-- C1, amended: the total compared against the balance equals
`finalAmount - feeExtra` (the code adds `feeExtra * -1`); for feeExtra = -2
the final amount is the minimum plus 2 and the compared total the minimum
plus 4, and the sufficiency check passes against a balance of 10^8. -/
theorem nftTransferTotal_formula :
    (∀ feeExtra : Int,
       nftTransferTotal feeExtra =
         nftTransferFinalAmount feeExtra - feeExtra) ∧
    nftTransferFinalAmount (-2) = nftTransferMin + 2 ∧
    nftTransferTotal (-2) = nftTransferMin + 4 ∧
    checkWalletBalanceOrDie (nftTransferTotal (-2)) 100000000 = .ok () :=
  ⟨fun feeExtra => by unfold nftTransferTotal; omega,
   by decide, by decide, rfl⟩

/-- C2: for every remote-reported fee delta, the final transfer amount of
`sendNftTransfer` equals `max(minimum, minimum - feeExtra)` with the fixed
minimum of 0.05 TON, and that is exactly the value attached to the
broadcast message on every successful run. -/
theorem nftTransferFinalAmount_netting :
    ∀ feeExtra : Int,
      nftTransferFinalAmount feeExtra =
        max nftTransferMin (nftTransferMin - feeExtra) ∧
      ∀ (parse : String → Address) (comment : String → Cell) (e : Env)
        (ws : WalletState) (r : TonRecipientData) (n : String)
        (msg : TransferMessage),
        sendNftTransfer parse comment e ws r n feeExtra = .ok msg →
        msg.value = max nftTransferMin (nftTransferMin - feeExtra) := by
  intro feeExtra
  have hmax : nftTransferFinalAmount feeExtra =
      max nftTransferMin (nftTransferMin - feeExtra) := by
    unfold nftTransferFinalAmount
    rw [max_def]
    split <;> split <;> omega
  refine ⟨hmax, ?_⟩
  intro parse comment e ws r n msg h
  rw [sendNftTransfer_eq] at h
  split_ifs at h
  all_goals
    first
      | exact Except.noConfusion h
      | (cases h
         simpa [createNftTransfer, createTransferMessage] using hmax)

/-- Witness for C2: a concrete successful run at feeExtra = -2 whose
broadcast message carries exactly the clamped netting result. -/
theorem nftTransferFinalAmount_netting_witness :
    sendNftTransfer parse0 comment0 env1 ws0 r0 "nft" (-2) = .ok msgC2 ∧
    msgC2.value = max nftTransferMin (nftTransferMin - (-2)) :=
  ⟨sendNftTransfer_env1_run,
   (nftTransferFinalAmount_netting (-2)).2 parse0 comment0 env1 ws0 r0
    "nft" msgC2 sendNftTransfer_env1_run⟩

/-- C5: the guard of lines 136-138 rejects every non-positive netted amount
with InvalidAmount, and it runs before assembly: an error result carries no
message, and every message a successful `sendNftTransfer` run broadcasts
has a strictly positive value. -/
theorem nonpositive_amount_guard :
    (∀ a : Int, a ≤ 0 → checkNftTransferAmount a = .error .invalidAmount) ∧
    (∀ (parse : String → Address) (comment : String → Cell) (e : Env)
       (ws : WalletState) (r : TonRecipientData) (n : String)
       (feeExtra : Int) (msg : TransferMessage),
       sendNftTransfer parse comment e ws r n feeExtra = .ok msg →
       0 < msg.value) := by
  constructor
  · intro a ha
    simp [checkNftTransferAmount, ha]
  · intro parse comment e ws r n feeExtra msg h
    rw [sendNftTransfer_eq] at h
    split_ifs at h
    all_goals
      first
        | exact Except.noConfusion h
        | (cases h
           simpa [createNftTransfer, createTransferMessage] using
             nftTransferFinalAmount_pos feeExtra)

/-- Witness for C5: the guard fires at the concrete non-positive amount -1,
and the concrete successful run broadcasts a positive value. -/
theorem nonpositive_amount_guard_witness :
    checkNftTransferAmount (-1) = .error .invalidAmount ∧ 0 < msgC2.value :=
  ⟨nonpositive_amount_guard.1 (-1) (by decide),
   nonpositive_amount_guard.2 parse0 comment0 env1 ws0 r0 "nft" (-2) msgC2
     sendNftTransfer_env1_run⟩

/-- C9: the netted amount clamped against the 0.05 TON minimum is strictly
positive for every fee delta, so the InvalidAmount branch of
`sendNftTransfer` is unreachable: every run ends in ServiceUnavailable,
WrongPassword, InsufficientBalance, or a successful broadcast. -/
theorem nftTransferAmount_guard_unreachable :
    (∀ feeExtra : Int, 0 < nftTransferFinalAmount feeExtra) ∧
    (∀ (parse : String → Address) (comment : String → Cell) (e : Env)
       (ws : WalletState) (r : TonRecipientData) (n : String)
       (feeExtra : Int),
       sendNftTransfer parse comment e ws r n feeExtra =
           .error .serviceUnavailable ∨
         sendNftTransfer parse comment e ws r n feeExtra =
           .error .wrongPassword ∨
         sendNftTransfer parse comment e ws r n feeExtra =
           .error .insufficientBalance ∨
         ∃ msg, sendNftTransfer parse comment e ws r n feeExtra =
           .ok msg) := by
  constructor
  · exact nftTransferFinalAmount_pos
  · intro parse comment e ws r n feeExtra
    rw [sendNftTransfer_eq]
    split_ifs <;> simp

/-- C3: every send entry point runs the strict sufficiency check — failing
with InsufficientBalance when the computed total exceeds the spendable
balance — before anything is submitted (an error result carries no
message), while every estimate entry point ends only in ServiceUnavailable,
EmptyBalance, or success, never in InsufficientBalance. -/
theorem send_paths_use_sufficiency_check :
    (∀ (parse : String → Address) (comment : String → Cell) (e : Env)
       (ws : WalletState) (r : TonRecipientData) (n : String)
       (feeExtra : Int),
       e.serviceOk = true → e.passwordOk = true →
       nftTransferTotal feeExtra > e.balance →
       sendNftTransfer parse comment e ws r n feeExtra =
         .error .insufficientBalance) ∧
    (∀ (e : Env) (n : String) (amount feeExtra : Int),
       e.serviceOk = true → e.passwordOk = true →
       amount + feeExtra * (-1) > e.balance →
       sendNftRenew e n amount feeExtra = .error .insufficientBalance) ∧
    (∀ (parse : String → Address) (e : Env) (n link : String)
       (amount feeExtra : Int),
       e.serviceOk = true → e.passwordOk = true →
       amount + feeExtra * (-1) > e.balance →
       sendNftLink parse e n link amount feeExtra =
         .error .insufficientBalance) ∧
    (∀ (parse : String → Address) (comment : String → Cell) (e : Env)
       (ws : WalletState) (r : TonRecipientData) (n : String),
       estimateNftTransfer parse comment e ws r n =
           .error .serviceUnavailable ∨
         estimateNftTransfer parse comment e ws r n = .error .emptyBalance ∨
         ∃ msg, estimateNftTransfer parse comment e ws r n = .ok msg) ∧
    (∀ (e : Env) (n : String) (amount : Int),
       estimateNftRenew e n amount = .error .serviceUnavailable ∨
         estimateNftRenew e n amount = .error .emptyBalance ∨
         ∃ msg, estimateNftRenew e n amount = .ok msg) ∧
    (∀ (parse : String → Address) (e : Env) (n link : String)
       (amount : Int),
       estimateNftLink parse e n link amount = .error .serviceUnavailable ∨
         estimateNftLink parse e n link amount = .error .emptyBalance ∨
         ∃ msg, estimateNftLink parse e n link amount = .ok msg) := by
  refine ⟨?_, ?_, ?_, ?_, ?_, ?_⟩
  · intro parse comment e ws r n feeExtra h1 h2 h3
    rw [sendNftTransfer_eq]
    simp [h1, h2, h3]
  · intro e n amount feeExtra h1 h2 h3
    rw [sendNftRenew_eq]
    simp [h1, h2]
    omega
  · intro parse e n link amount feeExtra h1 h2 h3
    rw [sendNftLink_eq]
    simp [h1, h2]
    omega
  · intro parse comment e ws r n
    rw [estimateNftTransfer_eq]
    split_ifs <;> simp
  · intro e n amount
    rw [estimateNftRenew_eq]
    split_ifs <;> simp
  · intro parse e n link amount
    rw [estimateNftLink_eq]
    split_ifs <;> simp

/-- Witness for C3: concrete runs against a zero-balance account in which
each of the three send entry points fails with InsufficientBalance. -/
theorem send_paths_use_sufficiency_check_witness :
    sendNftTransfer parse0 comment0 env0 ws0 r0 "nft" 0 =
      .error .insufficientBalance ∧
    sendNftRenew env0 "nft" 5 0 = .error .insufficientBalance ∧
    sendNftLink parse0 env0 "nft" "link" 5 0 =
      .error .insufficientBalance :=
  ⟨send_paths_use_sufficiency_check.1 parse0 comment0 env0 ws0 r0 "nft" 0
     rfl rfl (by decide),
   send_paths_use_sufficiency_check.2.1 env0 "nft" 5 0 rfl rfl (by decide),
   send_paths_use_sufficiency_check.2.2.1 parse0 env0 "nft" "link" 5 0
     rfl rfl (by decide)⟩

/-- C6: each estimate entry point is fully characterized by the service-time
check, then the positive-balance check, then a message assembled with the
zero-filled placeholder key `zeroKey`; the outcome never mentions the secret
store fields, and the last three conjuncts state that outright — changing
the stored passphrase acceptance or the derived secret key leaves every
estimate result unchanged. -/
theorem estimate_paths_checks_and_placeholder_key :
    (∀ (parse : String → Address) (comment : String → Cell) (e : Env)
       (ws : WalletState) (r : TonRecipientData) (n : String),
       estimateNftTransfer parse comment e ws r n =
         if e.serviceOk = false then .error .serviceUnavailable
         else if e.balance ≤ 0 then .error .emptyBalance
         else .ok (createNftTransfer parse e.now e.seqno ws r.addressRaw n
           initNftTransferAmount
           (if r.comment ≠ "" then some (comment r.comment) else none)
           zeroKey)) ∧
    (∀ (e : Env) (n : String) (amount : Int),
       estimateNftRenew e n amount =
         if e.serviceOk = false then .error .serviceUnavailable
         else if e.balance ≤ 0 then .error .emptyBalance
         else .ok (createTransferMessage e.seqno zeroKey n amount
           (nftRenewBody none))) ∧
    (∀ (parse : String → Address) (e : Env) (n link : String)
       (amount : Int),
       estimateNftLink parse e n link amount =
         if e.serviceOk = false then .error .serviceUnavailable
         else if e.balance ≤ 0 then .error .emptyBalance
         else .ok (createTransferMessage e.seqno zeroKey n amount
           (nftLinkBody parse ⟨none, link⟩))) ∧
    (∀ (parse : String → Address) (comment : String → Cell) (e : Env)
       (ws : WalletState) (r : TonRecipientData) (n : String)
       (pw : Bool) (k : List Nat),
       estimateNftTransfer parse comment
           { e with passwordOk := pw, secretKey := k } ws r n =
         estimateNftTransfer parse comment e ws r n) ∧
    (∀ (e : Env) (n : String) (amount : Int) (pw : Bool) (k : List Nat),
       estimateNftRenew { e with passwordOk := pw, secretKey := k } n
           amount =
         estimateNftRenew e n amount) ∧
    (∀ (parse : String → Address) (e : Env) (n link : String)
       (amount : Int) (pw : Bool) (k : List Nat),
       estimateNftLink parse { e with passwordOk := pw, secretKey := k } n
           link amount =
         estimateNftLink parse e n link amount) := by
  refine ⟨estimateNftTransfer_eq, estimateNftRenew_eq, estimateNftLink_eq,
    ?_, ?_, ?_⟩
  · intro parse comment e ws r n pw k
    rw [estimateNftTransfer_eq, estimateNftTransfer_eq]
  · intro e n amount pw k
    rw [estimateNftRenew_eq, estimateNftRenew_eq]
  · intro parse e n link amount pw k
    rw [estimateNftLink_eq, estimateNftLink_eq]
